import Mathlib

/-!
Verification of the pet-store API test framework's core subsystems against
their natural-language specification: the update verifier
(framework/utilities/response_validator.py and the wrapper in
framework/base_test.py), the retry loop (BaseTest.get_pet_with_retry),
the error classifier (framework/utilities/error_analyzer.py), the two
stability trackers (framework/utilities/test_helpers.py and
framework/utilities/stability_tracker.py), and the pet-id validator
(framework/exceptions.py).

Modelling conventions: Python dicts appearing in pet records become
association lists with unique keys; JSON values are restricted to the
shapes that occur in pet records (strings, integers, booleans, arrays of
strings, null), with Python `==` as equality; Python floats produced by
`round`/division are modelled as exact rationals; wall-clock reads
(`time.time()`, `datetime.now()`) become an explicit `now : ℚ` argument;
a fallible Python function that raises becomes `Except`/`Option`.
-/

/-- JSON values as they occur in pet records. -/
inductive JVal where
  | s (v : String)
  | i (v : ℤ)
  | b (v : Bool)
  | strList (v : List String)
  | null
deriving DecidableEq, Repr

/-- A Python dict with string keys, as an association list (keys unique). -/
abbrev PyDict := List (String × JVal)

/-- Python `d[k]` / `k in d` lookup. -/
def dget (d : PyDict) (k : String) : Option JVal :=
  (d.find? (fun p => p.1 == k)).map Prod.snd

/-- The slice of `APIResponse` (framework/api_client.py) the validators
consume: the status code and the parsed JSON body (`none` models a body
on which `response.json()` raises). -/
structure VResponse where
  status_code : Nat
  body : Option PyDict
deriving DecidableEq, Repr

/-- ResponseValidator.validate_update_occurred
(framework/utilities/response_validator.py lines 64-93): requires status
200, a parsable body, and, for every `(field, expected_value)` in
`expected_changes`, that `field` is present in the updated data with
exactly `expected_value`.  The `original_data` argument is only used for
a debug log line; it does not influence the result. -/
def validate_update_occurred (original_data : PyDict) (response : VResponse)
    (expected_changes : PyDict) : Bool :=
  if response.status_code ≠ 200 then false
  else
    match response.body with
    | none => false
    | some updated_data =>
        expected_changes.all (fun p =>
          match dget updated_data p.1 with
          | none => false
          | some actual => decide (actual = p.2))

/-- The `expected_changes` dict built by BaseTest.assert_pet_data_updated
(framework/base_test.py lines 212-217): for each of the three tracked
fields, include it when it is present in both dicts and the intended
updated value differs from the original value. -/
def buildExpectedChanges (original_data updated_data : PyDict) : PyDict :=
  ["name", "status", "photoUrls"].filterMap (fun f =>
    match dget updated_data f, dget original_data f with
    | some uv, some ov => if uv ≠ ov then some (f, uv) else none
    | _, _ => none)

/-- BaseTest.assert_pet_data_updated (framework/base_test.py lines
207-233) as a Boolean: `true` when the assertion passes, `false` when it
raises PetUpdateError. -/
def assert_pet_data_updated (response : VResponse)
    (original_data updated_data : PyDict) : Bool :=
  validate_update_occurred original_data response
    (buildExpectedChanges original_data updated_data)

theorem dget_singleton (k : String) (v : JVal) : dget [(k, v)] k = some v := by
  simp [dget]

/-- C1 (counterexample): with before-record, after-data and
expected_changes all `{"name": "x"}` — so `before[field] == after[field]
== expected_changes[field]` for the tracked field — the code's
validate_update_occurred returns `true`, not `false` as the claim
requires: the genuine-change condition (c) of the spec is never checked
by this function. -/
theorem C1_update_verifier_counterexample :
    validate_update_occurred [("name", JVal.s "x")]
        ⟨200, some [("name", JVal.s "x")]⟩ [("name", JVal.s "x")] = true
      ∧ dget [("name", JVal.s "x")] "name" = some (JVal.s "x") := by
  constructor
  · rfl
  · simp [dget]

/-- C1 (amended): validate_update_occurred returns true iff the response
has status 200, its body parses, and every field of expected_changes is
present in the after-data with exactly the expected value; the
before-record never influences the result.  The genuine-change guarantee
holds only through the wrapper assert_pet_data_updated, which places a
field into expected_changes only when the intended value differs from
the before-value: whenever the wrapper passes, each tracked field's
after-value equals the intended value and differs from the before-value. -/
theorem fieldCheck_iff (body : PyDict) (p : String × JVal) :
    (match dget body p.1 with
      | none => false
      | some actual => decide (actual = p.2)) = true
      ↔ dget body p.1 = some p.2 := by
  cases hd : dget body p.1 <;> simp

theorem validate_update_occurred_iff (original : PyDict) (resp : VResponse)
    (expected : PyDict) :
    validate_update_occurred original resp expected = true ↔
      (resp.status_code = 200 ∧ ∃ body, resp.body = some body ∧
        ∀ p ∈ expected, dget body p.1 = some p.2) := by
  obtain ⟨sc, ob⟩ := resp
  by_cases hs : sc = 200
  · subst hs
    cases ob with
    | none =>
        have hv : validate_update_occurred original ⟨200, none⟩ expected = false := rfl
        rw [hv]
        simp
    | some body =>
        have hv : validate_update_occurred original ⟨200, some body⟩ expected
            = expected.all (fun p =>
                match dget body p.1 with
                | none => false
                | some actual => decide (actual = p.2)) := rfl
        rw [hv, List.all_eq_true]
        constructor
        · intro h
          exact ⟨rfl, body, rfl, fun p hp => (fieldCheck_iff body p).mp (h p hp)⟩
        · rintro ⟨-, body', hb, hall⟩
          injection hb with hb'
          subst hb'
          intro p hp
          exact (fieldCheck_iff body p).mpr (hall p hp)
  · have hv : validate_update_occurred original ⟨sc, ob⟩ expected = false := by
      unfold validate_update_occurred
      simp [hs]
    rw [hv]
    simp [hs]

theorem C1_update_verifier_amended :
    (∀ (original : PyDict) (resp : VResponse) (expected : PyDict),
        validate_update_occurred original resp expected = true ↔
          (resp.status_code = 200 ∧ ∃ body, resp.body = some body ∧
            ∀ p ∈ expected, dget body p.1 = some p.2))
    ∧ (∀ (original original' : PyDict) (resp : VResponse) (expected : PyDict),
        validate_update_occurred original resp expected
          = validate_update_occurred original' resp expected)
    ∧ (∀ (original updated : PyDict) (resp : VResponse) (body : PyDict)
        (f : String) (v : JVal),
        resp.body = some body →
        (f, v) ∈ buildExpectedChanges original updated →
        assert_pet_data_updated resp original updated = true →
        dget body f = some v ∧ dget original f ≠ some v) := by
  refine ⟨validate_update_occurred_iff, ?_, ?_⟩
  · intro original original' resp expected
    unfold validate_update_occurred
    rfl
  · intro original updated resp body f v hbody hmem hpass
    have h200 := (validate_update_occurred_iff original resp
      (buildExpectedChanges original updated)).mp hpass
    obtain ⟨-, body', hbody', hall⟩ := h200
    rw [hbody] at hbody'
    injection hbody' with hbody''
    subst hbody''
    have hafter : dget body f = some v := hall (f, v) hmem
    refine ⟨hafter, ?_⟩
    unfold buildExpectedChanges at hmem
    simp only [List.mem_filterMap] at hmem
    obtain ⟨g, -, hg⟩ := hmem
    cases hu : dget updated g with
    | none => rw [hu] at hg; simp at hg
    | some uv =>
        cases ho : dget original g with
        | none => rw [hu, ho] at hg; simp at hg
        | some ov =>
            simp only [hu, ho] at hg
            by_cases hne : uv = ov
            · rw [if_neg (by simp [hne])] at hg
              exact absurd hg (by simp)
            · rw [if_pos hne] at hg
              injection hg with hg'
              injection hg' with h1 h2
              subst h1
              subst h2
              rw [ho]
              intro hcontra
              injection hcontra with hcontra'
              exact hne hcontra'.symm

/-! ## Retry loop: BaseTest.get_pet_with_retry (framework/base_test.py lines 87-182)

The loop is modelled over an abstract per-attempt outcome of
`client.get_pet_by_id`: a response with some status code, a raised
PetNotFoundError, a raised APIConnectionError, or any other exception.
The trace records how many times the operation was invoked, how many
times `time.sleep` ran, every `stability_tracker.record_attempt` call in
order, and the terminal outcome. -/

/-- One outcome of invoking `client.get_pet_by_id` inside the loop. -/
inductive AttemptOutcome where
  | resp (status : Nat)
  | petNotFoundExn
  | connErr
  | otherExn
deriving DecidableEq, Repr

/-- Terminal outcome of get_pet_with_retry: the returned success (with
its 0-indexed attempt), a raised PetNotFoundError, or a raised
RetryLimitExceededError carrying the last observed status. -/
inductive RetryResult where
  | success (attemptIdx : Nat)
  | petNotFound
  | retryLimitExceeded (lastStatus : Option Nat)
deriving DecidableEq, Repr

/-- Observable trace of one run of get_pet_with_retry. -/
structure RetryTrace where
  calls : Nat
  sleeps : Nat
  recorded : List (Bool × Nat)
  result : RetryResult
deriving DecidableEq, Repr

/-- The `for attempt in range(max_retries)` body of get_pet_with_retry
(framework/base_test.py lines 111-182), with the mutable locals
`retry_count`, `last_response` (its status), `last_exception` passed
explicitly; `remaining` counts the iterations left, so the current
attempt index satisfies `attempt = max_retries - remaining`.  A sleep
happens only when `attempt < max_retries - 1`, i.e. when more than one
iteration remains. -/
def retryGo (op : Nat → AttemptOutcome) :
    Nat → Nat → Nat → Option Nat → Bool → Nat → Nat →
    List (Bool × Nat) → RetryTrace
  | 0, _attempt, retryCount, lastStatus, lastExn, calls, sleeps, recorded =>
    -- loop over: record the failure, then raise
    let recorded := recorded ++ [(false, retryCount)]
    if lastExn then
      ⟨calls, sleeps, recorded, .retryLimitExceeded lastStatus⟩
    else
      match lastStatus with
      | some s =>
          if s = 404 then ⟨calls, sleeps, recorded, .petNotFound⟩
          else ⟨calls, sleeps, recorded, .retryLimitExceeded (some s)⟩
      | none => ⟨calls, sleeps, recorded, .retryLimitExceeded none⟩
  | remaining + 1, attempt, _retryCount, lastStatus, lastExn, calls, sleeps, recorded =>
    let calls := calls + 1
    match op attempt with
    | .resp s =>
        if s = 200 then
          ⟨calls, sleeps, recorded ++ [(true, attempt)], .success attempt⟩
        else if s = 404 then
          -- don't retry for 404: record and raise PetNotFoundError, no sleep
          ⟨calls, sleeps, recorded ++ [(false, attempt + 1)], .petNotFound⟩
        else
          let sleeps := if remaining > 0 then sleeps + 1 else sleeps
          retryGo op remaining (attempt + 1) (attempt + 1) (some s) lastExn calls sleeps recorded
    | .petNotFoundExn =>
        -- re-raised immediately: no record, no sleep
        ⟨calls, sleeps, recorded, .petNotFound⟩
    | .connErr =>
        let sleeps := if remaining > 0 then sleeps + 1 else sleeps
        retryGo op remaining (attempt + 1) (attempt + 1) lastStatus true calls sleeps recorded
    | .otherExn =>
        let sleeps := if remaining > 0 then sleeps + 1 else sleeps
        retryGo op remaining (attempt + 1) (attempt + 1) lastStatus true calls sleeps recorded

/-- The `max_retries = max_retries or APIConstants.MAX_RETRIES` default
(framework/base_test.py line 93, APIConstants.MAX_RETRIES = 3): `None`
and the falsy `0` both resolve to 3. -/
def resolveMaxRetries : Option Nat → Nat
  | none => 3
  | some n => if n = 0 then 3 else n

/-- BaseTest.get_pet_with_retry as a trace function (pet-id validation
already passed; `max_retries` as handed in by the caller). -/
def get_pet_with_retry (op : Nat → AttemptOutcome) (max_retries : Option Nat) :
    RetryTrace :=
  retryGo op (resolveMaxRetries max_retries) 0 0 none false 0 0 []

/-- Failures the loop continues past: any response status other than 200
and 404, and any exception other than PetNotFoundError. -/
def loopRetryable : AttemptOutcome → Bool
  | .resp s => decide (s ≠ 200) && decide (s ≠ 404)
  | .petNotFoundExn => false
  | .connErr => true
  | .otherExn => true


theorem retryGo_step_success (op : Nat → AttemptOutcome)
    (t attempt rc : Nat) (ls : Option Nat) (le : Bool)
    (c s : Nat) (rec : List (Bool × Nat)) (hop : op attempt = .resp 200) :
    retryGo op (t + 1) attempt rc ls le c s rec
      = ⟨c + 1, s, rec ++ [(true, attempt)], .success attempt⟩ := by
  simp [retryGo, hop]

theorem retryGo_step_404 (op : Nat → AttemptOutcome)
    (t attempt rc : Nat) (ls : Option Nat) (le : Bool)
    (c s : Nat) (rec : List (Bool × Nat)) (hop : op attempt = .resp 404) :
    retryGo op (t + 1) attempt rc ls le c s rec
      = ⟨c + 1, s, rec ++ [(false, attempt + 1)], .petNotFound⟩ := by
  simp [retryGo, hop]

theorem retryGo_step_pnfExn (op : Nat → AttemptOutcome)
    (t attempt rc : Nat) (ls : Option Nat) (le : Bool)
    (c s : Nat) (rec : List (Bool × Nat)) (hop : op attempt = .petNotFoundExn) :
    retryGo op (t + 1) attempt rc ls le c s rec
      = ⟨c + 1, s, rec, .petNotFound⟩ := by
  simp [retryGo, hop]

theorem retryGo_step_resp_other (op : Nat → AttemptOutcome)
    (t attempt rc : Nat) (ls : Option Nat) (le : Bool)
    (c s : Nat) (rec : List (Bool × Nat)) (s0 : Nat)
    (hop : op attempt = .resp s0) (h200 : s0 ≠ 200) (h404 : s0 ≠ 404) :
    retryGo op (t + 1) attempt rc ls le c s rec
      = retryGo op t (attempt + 1) (attempt + 1) (some s0) le (c + 1)
          (if t > 0 then s + 1 else s) rec := by
  simp only [retryGo, hop]
  rw [if_neg h200, if_neg h404]

theorem retryGo_step_connErr (op : Nat → AttemptOutcome)
    (t attempt rc : Nat) (ls : Option Nat) (le : Bool)
    (c s : Nat) (rec : List (Bool × Nat)) (hop : op attempt = .connErr) :
    retryGo op (t + 1) attempt rc ls le c s rec
      = retryGo op t (attempt + 1) (attempt + 1) ls true (c + 1)
          (if t > 0 then s + 1 else s) rec := by
  simp only [retryGo, hop]

theorem retryGo_step_otherExn (op : Nat → AttemptOutcome)
    (t attempt rc : Nat) (ls : Option Nat) (le : Bool)
    (c s : Nat) (rec : List (Bool × Nat)) (hop : op attempt = .otherExn) :
    retryGo op (t + 1) attempt rc ls le c s rec
      = retryGo op t (attempt + 1) (attempt + 1) ls true (c + 1)
          (if t > 0 then s + 1 else s) rec := by
  simp only [retryGo, hop]

theorem retryGo_zero (op : Nat → AttemptOutcome) (attempt rc : Nat)
    (ls : Option Nat) (le : Bool) (c s : Nat) (rec : List (Bool × Nat)) :
    (retryGo op 0 attempt rc ls le c s rec).calls = c
      ∧ (retryGo op 0 attempt rc ls le c s rec).sleeps = s := by
  cases le <;> cases ls <;> simp only [retryGo] <;> constructor <;>
    (try split) <;> (try split) <;> rfl

theorem retryGo_call_bound (op : Nat → AttemptOutcome) :
    ∀ (r attempt retryCount : Nat) (lastStatus : Option Nat) (lastExn : Bool)
      (calls sleeps : Nat) (recorded : List (Bool × Nat)), 0 < r →
      ∃ d, 1 ≤ d ∧ d ≤ r ∧
        (retryGo op r attempt retryCount lastStatus lastExn calls sleeps recorded).calls
          = calls + d ∧
        (retryGo op r attempt retryCount lastStatus lastExn calls sleeps recorded).sleeps
          = sleeps + (d - 1) := by
  intro r
  induction r with
  | zero => intro _ _ _ _ _ _ _ h; omega
  | succ t ih =>
      intro attempt retryCount lastStatus lastExn calls sleeps recorded _
      cases hop : op attempt with
      | resp s =>
          by_cases h200 : s = 200
          · subst h200
            rw [retryGo_step_success op t attempt retryCount lastStatus lastExn
              calls sleeps recorded hop]
            exact ⟨1, le_refl 1, by omega, rfl, by simp⟩
          · by_cases h404 : s = 404
            · subst h404
              rw [retryGo_step_404 op t attempt retryCount lastStatus lastExn
                calls sleeps recorded hop]
              exact ⟨1, le_refl 1, by omega, rfl, by simp⟩
            · rw [retryGo_step_resp_other op t attempt retryCount lastStatus lastExn
                calls sleeps recorded s hop h200 h404]
              cases t with
              | zero =>
                  simp only [gt_iff_lt, lt_irrefl, if_false]
                  refine ⟨1, le_refl 1, by omega, ?_, ?_⟩
                  · rw [(retryGo_zero op (attempt + 1) (attempt + 1) (some s) lastExn
                      (calls + 1) sleeps recorded).1]
                  · rw [(retryGo_zero op (attempt + 1) (attempt + 1) (some s) lastExn
                      (calls + 1) sleeps recorded).2]
                    omega
              | succ t' =>
                  obtain ⟨d, hd1, hd2, hc, hs⟩ :=
                    ih (attempt + 1) (attempt + 1) (some s) lastExn
                      (calls + 1) (sleeps + 1) recorded (by omega)
                  rw [if_pos (by omega)]
                  exact ⟨d + 1, by omega, by omega, by rw [hc]; omega, by rw [hs]; omega⟩
      | petNotFoundExn =>
          rw [retryGo_step_pnfExn op t attempt retryCount lastStatus lastExn
            calls sleeps recorded hop]
          exact ⟨1, le_refl 1, by omega, rfl, by simp⟩
      | connErr =>
          rw [retryGo_step_connErr op t attempt retryCount lastStatus lastExn
            calls sleeps recorded hop]
          cases t with
          | zero =>
              simp only [gt_iff_lt, lt_irrefl, if_false]
              refine ⟨1, le_refl 1, by omega, ?_, ?_⟩
              · rw [(retryGo_zero op (attempt + 1) (attempt + 1) lastStatus true
                  (calls + 1) sleeps recorded).1]
              · rw [(retryGo_zero op (attempt + 1) (attempt + 1) lastStatus true
                  (calls + 1) sleeps recorded).2]
                omega
          | succ t' =>
              obtain ⟨d, hd1, hd2, hc, hs⟩ :=
                ih (attempt + 1) (attempt + 1) lastStatus true
                  (calls + 1) (sleeps + 1) recorded (by omega)
              rw [if_pos (by omega)]
              exact ⟨d + 1, by omega, by omega, by rw [hc]; omega, by rw [hs]; omega⟩
      | otherExn =>
          rw [retryGo_step_otherExn op t attempt retryCount lastStatus lastExn
            calls sleeps recorded hop]
          cases t with
          | zero =>
              simp only [gt_iff_lt, lt_irrefl, if_false]
              refine ⟨1, le_refl 1, by omega, ?_, ?_⟩
              · rw [(retryGo_zero op (attempt + 1) (attempt + 1) lastStatus true
                  (calls + 1) sleeps recorded).1]
              · rw [(retryGo_zero op (attempt + 1) (attempt + 1) lastStatus true
                  (calls + 1) sleeps recorded).2]
                omega
          | succ t' =>
              obtain ⟨d, hd1, hd2, hc, hs⟩ :=
                ih (attempt + 1) (attempt + 1) lastStatus true
                  (calls + 1) (sleeps + 1) recorded (by omega)
              rw [if_pos (by omega)]
              exact ⟨d + 1, by omega, by omega, by rw [hc]; omega, by rw [hs]; omega⟩

theorem retryGo_skip (op : Nat → AttemptOutcome) (k : Nat) :
    ∀ (r a : Nat) (rc : Nat) (ls : Option Nat) (le : Bool) (c s : Nat)
      (rec : List (Bool × Nat)),
      (∀ j, j < k → loopRetryable (op (a + j)) = true) →
      k < r →
      ∃ rc' ls' le',
        retryGo op r a rc ls le c s rec
          = retryGo op (r - k) (a + k) rc' ls' le' (c + k) (s + k) rec := by
  induction k with
  | zero =>
      intro r a rc ls le c s rec _ _
      exact ⟨rc, ls, le, by simp⟩
  | succ k ih =>
      intro r a rc ls le c s rec hfail hk
      have h0 : loopRetryable (op a) = true := by
        have := hfail 0 (by omega)
        simpa using this
      obtain ⟨t, rfl⟩ : ∃ t, r = t + 1 := ⟨r - 1, by omega⟩
      have htk : k < t := by omega
      have hrew : ∀ j, j < k → loopRetryable (op (a + 1 + j)) = true := by
        intro j hj
        have := hfail (j + 1) (by omega)
        have harith : a + (j + 1) = a + 1 + j := by omega
        rwa [harith] at this
      have harith1 : a + (k + 1) = a + 1 + k := by omega
      have harith2 : c + (k + 1) = c + 1 + k := by omega
      have harith3 : s + (k + 1) = s + 1 + k := by omega
      have harith4 : t + 1 - (k + 1) = t - k := by omega
      cases hop : op a with
      | resp s0 =>
          rw [hop] at h0
          simp only [loopRetryable, Bool.and_eq_true, decide_eq_true_eq] at h0
          rw [retryGo_step_resp_other op t a rc ls le c s rec s0 hop h0.1 h0.2,
            if_pos (by omega)]
          obtain ⟨rc', ls', le', heq⟩ :=
            ih t (a + 1) (a + 1) (some s0) le (c + 1) (s + 1) rec hrew htk
          exact ⟨rc', ls', le', by rw [heq, harith1, harith2, harith3, harith4]⟩
      | petNotFoundExn =>
          rw [hop] at h0
          exact absurd h0 (by simp [loopRetryable])
      | connErr =>
          rw [retryGo_step_connErr op t a rc ls le c s rec hop, if_pos (by omega)]
          obtain ⟨rc', ls', le', heq⟩ :=
            ih t (a + 1) (a + 1) ls true (c + 1) (s + 1) rec hrew htk
          exact ⟨rc', ls', le', by rw [heq, harith1, harith2, harith3, harith4]⟩
      | otherExn =>
          rw [retryGo_step_otherExn op t a rc ls le c s rec hop, if_pos (by omega)]
          obtain ⟨rc', ls', le', heq⟩ :=
            ih t (a + 1) (a + 1) ls true (c + 1) (s + 1) rec hrew htk
          exact ⟨rc', ls', le', by rw [heq, harith1, harith2, harith3, harith4]⟩

/-- C4: for every max_attempts `m ≥ 1` handed to get_pet_with_retry, the
loop invokes the operation at most `m` times; the number of sleeps is
always exactly one less than the number of calls, so no sleep ever
follows the final call (in particular none after a failing final
attempt); and with `m = 1` the loop performs exactly one attempt and
never sleeps. -/
theorem C4_retry_budget (op : Nat → AttemptOutcome) (m : Nat) (hm : 1 ≤ m) :
    (get_pet_with_retry op (some m)).calls ≤ m
    ∧ (get_pet_with_retry op (some m)).sleeps + 1 = (get_pet_with_retry op (some m)).calls
    ∧ (m = 1 → (get_pet_with_retry op (some m)).calls = 1
        ∧ (get_pet_with_retry op (some m)).sleeps = 0) := by
  have hres : resolveMaxRetries (some m) = m := by
    show (if m = 0 then 3 else m) = m
    rw [if_neg (by omega)]
  unfold get_pet_with_retry
  rw [hres]
  obtain ⟨d, hd1, hd2, hc, hs⟩ :=
    retryGo_call_bound op m 0 0 none false 0 0 [] (by omega)
  refine ⟨by omega, by omega, ?_⟩
  intro h1
  subst h1
  constructor <;> omega

/-- C4 witness: a concrete run with budget 2 against a permanently
failing backend. -/
theorem C4_retry_budget_witness :
    (get_pet_with_retry (fun _ => AttemptOutcome.resp 500) (some 2)).calls ≤ 2
    ∧ (get_pet_with_retry (fun _ => AttemptOutcome.resp 500) (some 2)).sleeps + 1
        = (get_pet_with_retry (fun _ => AttemptOutcome.resp 500) (some 2)).calls
    ∧ (2 = 1 → (get_pet_with_retry (fun _ => AttemptOutcome.resp 500) (some 2)).calls = 1
        ∧ (get_pet_with_retry (fun _ => AttemptOutcome.resp 500) (some 2)).sleeps = 0) :=
  C4_retry_budget (fun _ => AttemptOutcome.resp 500) 2 (by omega)

/-- C8: if the first `k` attempts fail with retryable failures and
attempt `k` (0-indexed, within the budget) returns status 200, the loop
stops right there: exactly `k + 1` calls, exactly `k` sleeps (none after
the success), a single tracker record — a success with retry count `k` —
and the successful response as result. -/
theorem C8_success_short_circuit (op : Nat → AttemptOutcome) (m k : Nat)
    (hk : k < m)
    (hfail : ∀ j, j < k → loopRetryable (op j) = true)
    (hsucc : op k = .resp 200) :
    get_pet_with_retry op (some m) = ⟨k + 1, k, [(true, k)], .success k⟩ := by
  have hres : resolveMaxRetries (some m) = m := by
    show (if m = 0 then 3 else m) = m
    rw [if_neg (by omega)]
  unfold get_pet_with_retry
  rw [hres]
  obtain ⟨rc', ls', le', heq⟩ :=
    retryGo_skip op k m 0 0 none false 0 0 []
      (by intro j hj; simpa using hfail j hj) hk
  rw [heq]
  obtain ⟨t, ht⟩ : ∃ t, m - k = t + 1 := ⟨m - k - 1, by omega⟩
  rw [ht, retryGo_step_success op t (0 + k) rc' ls' le' (0 + k) (0 + k) []
    (by simpa using hsucc)]
  simp

/-- C8 witness: one 500 then a success on attempt 1 with budget 3. -/
theorem C8_success_witness :
    get_pet_with_retry
        (fun i => if i = 0 then AttemptOutcome.resp 500 else AttemptOutcome.resp 200)
        (some 3)
      = ⟨2, 1, [(true, 1)], .success 1⟩ :=
  C8_success_short_circuit _ 3 1 (by omega) (by decide) (by decide)

/-- C2 (counterexample): a 400 — classified non-retryable by
ErrorAnalyzer — does NOT terminate the loop: with outcomes 400 then 200
and budget 3, the loop performs a second attempt and returns success, so
the attempt that produced the non-retryable failure was not terminal. -/
theorem C2_nonretryable_counterexample :
    (get_pet_with_retry
        (fun i => if i = 0 then AttemptOutcome.resp 400 else AttemptOutcome.resp 200)
        (some 3)).calls = 2
    ∧ (get_pet_with_retry
        (fun i => if i = 0 then AttemptOutcome.resp 400 else AttemptOutcome.resp 200)
        (some 3)).result = .success 1 := by
  constructor <;> rfl

/-- C2 (amended): the only failures get_pet_with_retry terminates on
early are 404 / PetNotFoundError, which end the run on the attempt that
produced them with no further attempt and no further sleep (a 404
response records a failure with retry count `k + 1` first; a propagated
PetNotFoundError records nothing); every other failure — including a 400
validation error, non-retryable per the ErrorAnalyzer, which the loop
never consults — is retried while budget remains. -/
theorem C2_nonretryable_amended (op : Nat → AttemptOutcome) (m k : Nat)
    (hk : k < m)
    (hfail : ∀ j, j < k → loopRetryable (op j) = true) :
    (op k = .resp 404 →
        get_pet_with_retry op (some m) = ⟨k + 1, k, [(false, k + 1)], .petNotFound⟩)
    ∧ (op k = .petNotFoundExn →
        get_pet_with_retry op (some m) = ⟨k + 1, k, [], .petNotFound⟩)
    ∧ (op k = .resp 400 → loopRetryable (op k) = true) := by
  have hres : resolveMaxRetries (some m) = m := by
    show (if m = 0 then 3 else m) = m
    rw [if_neg (by omega)]
  obtain ⟨rc', ls', le', heq⟩ :=
    retryGo_skip op k m 0 0 none false 0 0 []
      (by intro j hj; simpa using hfail j hj) hk
  obtain ⟨t, ht⟩ : ∃ t, m - k = t + 1 := ⟨m - k - 1, by omega⟩
  refine ⟨?_, ?_, ?_⟩
  · intro hop
    unfold get_pet_with_retry
    rw [hres, heq, ht, retryGo_step_404 op t (0 + k) rc' ls' le' (0 + k) (0 + k) []
      (by simpa using hop)]
    simp
  · intro hop
    unfold get_pet_with_retry
    rw [hres, heq, ht, retryGo_step_pnfExn op t (0 + k) rc' ls' le' (0 + k) (0 + k) []
      (by simpa using hop)]
    simp
  · intro hop
    rw [hop]
    simp [loopRetryable]

/-- C2 witness: a retryable connection error on attempt 0, then a 404 on
attempt 1, budget 5: terminal PetNotFoundError after 2 calls, 1 sleep. -/
theorem C2_nonretryable_witness :
    get_pet_with_retry
        (fun i => if i = 0 then AttemptOutcome.connErr else AttemptOutcome.resp 404)
        (some 5)
      = ⟨2, 1, [(false, 2)], .petNotFound⟩ :=
  (C2_nonretryable_amended _ 5 1 (by omega) (by decide)).1 (by decide)

/-! ## Rounding

Python's `round(x, n)` rounds to the nearest multiple of `10^-n`, ties
to even.  The framework's floats are modelled as exact rationals, so
`round(x, 1)` and `round(x, 2)` become exact decimal rounding. -/

/-- Round to the nearest integer, ties to the even one (Python `round`). -/
def roundHalfEvenZ (q : ℚ) : ℤ :=
  if q - ⌊q⌋ < 1/2 then ⌊q⌋
  else if 1/2 < q - ⌊q⌋ then ⌊q⌋ + 1
  else if ⌊q⌋ % 2 = 0 then ⌊q⌋ else ⌊q⌋ + 1

/-- Python `round(q, 1)`. -/
def pyRound1 (q : ℚ) : ℚ := (roundHalfEvenZ (q * 10) : ℚ) / 10

/-- Python `round(q, 2)`. -/
def pyRound2 (q : ℚ) : ℚ := (roundHalfEvenZ (q * 100) : ℚ) / 100

theorem roundHalfEvenZ_nonneg (q : ℚ) (h : 0 ≤ q) : 0 ≤ roundHalfEvenZ q := by
  have hf : 0 ≤ ⌊q⌋ := Int.floor_nonneg.mpr h
  unfold roundHalfEvenZ
  split_ifs <;> omega

theorem roundHalfEvenZ_le (q : ℚ) (c : ℤ) (h : q ≤ (c : ℚ)) :
    roundHalfEvenZ q ≤ c := by
  have hf : ⌊q⌋ ≤ c := by
    have := Int.floor_le_floor h
    simpa using this
  unfold roundHalfEvenZ
  split_ifs with h1 h2 h3
  · exact hf
  · by_contra hc
    push_neg at hc
    have hfc : ⌊q⌋ = c := by omega
    rw [hfc] at h2
    have hq : (c : ℚ) ≤ q := by linarith
    linarith [Int.floor_le q]
  · exact hf
  · by_contra hc
    push_neg at hc
    have hfc : ⌊q⌋ = c := by omega
    have hhalf : 1/2 ≤ q - (⌊q⌋ : ℚ) := by linarith
    rw [hfc] at hhalf
    linarith

theorem pyRound1_nonneg (q : ℚ) (h : 0 ≤ q) : 0 ≤ pyRound1 q := by
  unfold pyRound1
  have : (0 : ℚ) ≤ (roundHalfEvenZ (q * 10) : ℚ) := by
    exact_mod_cast roundHalfEvenZ_nonneg (q * 10) (by linarith)
  linarith

theorem pyRound1_le_100 (q : ℚ) (h : q ≤ 100) : pyRound1 q ≤ 100 := by
  unfold pyRound1
  have h10 : q * 10 ≤ ((1000 : ℤ) : ℚ) := by push_cast; linarith
  have : (roundHalfEvenZ (q * 10) : ℚ) ≤ 1000 := by
    exact_mod_cast roundHalfEvenZ_le (q * 10) 1000 h10
  linarith

theorem pyRound2_nonneg (q : ℚ) (h : 0 ≤ q) : 0 ≤ pyRound2 q := by
  unfold pyRound2
  have : (0 : ℚ) ≤ (roundHalfEvenZ (q * 100) : ℚ) := by
    exact_mod_cast roundHalfEvenZ_nonneg (q * 100) (by linarith)
  linarith

/-- Decimal rendering of the rationals produced by pyRound1/pyRound2 in
summary strings (at most two fractional digits, at least one, matching
Python's str() on the rounded floats the code interpolates). -/
def fmtQ (q : ℚ) : String :=
  let sgn := if q < 0 then "-" else ""
  let a := if q < 0 then -q else q
  let ip := ⌊a⌋
  let centi := ⌊(a - (ip : ℚ)) * 100⌋
  let fracStr :=
    if centi % 10 = 0 then toString (centi / 10)
    else toString (centi / 10) ++ toString (centi % 10)
  sgn ++ toString ip ++ "." ++ fracStr

/-! ## Stability tracker, test_helpers.py variant

`StabilityTracker` from framework/utilities/test_helpers.py (lines
61-114): counters plus a list of retry counts.  This is the variant
BaseTest instantiates.  Retry counts are Python ints, so ℤ. -/

namespace TestHelpers

structure StabilityTracker where
  operation_name : String
  attempts : Nat
  successes : Nat
  failures : Nat
  retry_counts : List ℤ
  start_time : ℚ
deriving DecidableEq, Repr

/-- `__init__` (start_time = time.time() becomes the `now` argument). -/
def StabilityTracker.init (operation_name : String) (now : ℚ) : StabilityTracker :=
  ⟨operation_name, 0, 0, 0, [], now⟩

/-- record_attempt (test_helpers.py lines 73-83). -/
def StabilityTracker.record_attempt (t : StabilityTracker) (success : Bool)
    (retry_count : ℤ) : StabilityTracker :=
  let t' := { t with
    attempts := t.attempts + 1
    retry_counts := t.retry_counts ++ [retry_count] }
  if success then { t' with successes := t'.successes + 1 }
  else { t' with failures := t'.failures + 1 }

/-- The mapping returned by get_metrics in the non-empty case. -/
structure Metrics where
  operation : String
  total_attempts : Nat
  successes : Nat
  failures : Nat
  success_rate : ℚ
  average_retries : ℚ
  duration_seconds : ℚ
  first_try_success_rate : ℚ
deriving DecidableEq, Repr

/-- get_metrics (test_helpers.py lines 85-103); the `{"error": "No
attempts recorded"}` sentinel becomes the `Except.error` case.  Note
first_try_success_rate counts every attempt whose retry count is 0
(`self.retry_counts.count(0)`), successes and failures alike. -/
def StabilityTracker.get_metrics (t : StabilityTracker) (now : ℚ) :
    Except String Metrics :=
  if t.attempts = 0 then .error "No attempts recorded"
  else .ok {
    operation := t.operation_name
    total_attempts := t.attempts
    successes := t.successes
    failures := t.failures
    success_rate := pyRound1 ((t.successes : ℚ) / (t.attempts : ℚ) * 100)
    average_retries := pyRound2 ((t.retry_counts.sum : ℚ) / (t.retry_counts.length : ℚ))
    duration_seconds := pyRound2 (now - t.start_time)
    first_try_success_rate := pyRound1 ((t.retry_counts.count 0 : ℚ) / (t.attempts : ℚ) * 100) }

/-- get_summary (test_helpers.py lines 105-114). -/
def StabilityTracker.get_summary (t : StabilityTracker) (now : ℚ) : String :=
  match t.get_metrics now with
  | .error e => e
  | .ok m =>
      m.operation ++ ": " ++ fmtQ m.success_rate ++ "% success ("
        ++ toString m.successes ++ "/" ++ toString m.total_attempts ++ "), "
        ++ fmtQ m.average_retries ++ " avg retries, "
        ++ fmtQ m.first_try_success_rate ++ "% first-try success"

/-- A whole sequence of record_attempt calls on a fresh tracker. -/
def StabilityTracker.applyAll (t : StabilityTracker) (ops : List (Bool × ℤ)) :
    StabilityTracker :=
  ops.foldl (fun a p => a.record_attempt p.1 p.2) t

/-- get_metrics in explicit-state form: the method body reads fields and
assigns none, so the post-state is the pre-state. -/
def StabilityTracker.get_metricsS (t : StabilityTracker) (now : ℚ) :
    Except String Metrics × StabilityTracker :=
  (t.get_metrics now, t)

/-- get_summary in explicit-state form. -/
def StabilityTracker.get_summaryS (t : StabilityTracker) (now : ℚ) :
    String × StabilityTracker :=
  (t.get_summary now, t)

/-- duration_seconds is the only wall-clock-dependent metric; erase it to
compare two reads. -/
def Metrics.eraseDuration (m : Metrics) : Metrics :=
  { m with duration_seconds := 0 }

end TestHelpers

/-! ## Stability tracker, stability_tracker.py variant

`StabilityTracker` from framework/utilities/stability_tracker.py: an
append-only list of per-attempt records. -/

namespace StabilityTrackerUtil

/-- AttemptRecord (stability_tracker.py lines 12-17); the
`datetime.now()` default becomes the `now` passed to record_attempt. -/
structure AttemptRecord where
  success : Bool
  attempt_number : ℤ
  timestamp : ℚ
deriving DecidableEq, Repr

structure StabilityTracker where
  operation_name : String
  attempts : List AttemptRecord
  start_time : ℚ
deriving DecidableEq, Repr

def StabilityTracker.init (operation_name : String) (now : ℚ) : StabilityTracker :=
  ⟨operation_name, [], now⟩

/-- record_attempt (stability_tracker.py lines 31-37). -/
def StabilityTracker.record_attempt (t : StabilityTracker) (success : Bool)
    (attempt_number : ℤ) (now : ℚ) : StabilityTracker :=
  { t with attempts := t.attempts ++ [⟨success, attempt_number, now⟩] }

/-- get_summary (stability_tracker.py lines 39-48); the `:.1f` format
becomes pyRound1 composed with the decimal renderer. -/
def StabilityTracker.get_summary (t : StabilityTracker) : String :=
  if t.attempts = [] then "No attempts recorded"
  else
    let total := t.attempts.length
    let succ := (t.attempts.filter (fun a => a.success)).length
    fmtQ (pyRound1 ((succ : ℚ) / (total : ℚ) * 100)) ++ "% success rate ("
      ++ toString succ ++ "/" ++ toString total ++ " attempts)"

structure Metrics where
  operation_name : String
  total_attempts : Nat
  successful_attempts : Nat
  success_rate : ℚ
  average_retries : ℚ
  first_try_success_rate : ℚ
  duration_seconds : ℚ
deriving DecidableEq, Repr

/-- get_metrics (stability_tracker.py lines 50-78): success_rate and the
rates are exact here (no rounding in the source); first-try successes
require `attempt.success and attempt.attempt_number == 0`. -/
def StabilityTracker.get_metrics (t : StabilityTracker) (now : ℚ) :
    Except String Metrics :=
  if t.attempts = [] then .error "No attempts recorded"
  else
    let total := t.attempts.length
    let succ := (t.attempts.filter (fun a => a.success)).length
    let totalRetries := (t.attempts.map (fun a => a.attempt_number)).sum
    let avg := if total > 0 then (totalRetries : ℚ) / (total : ℚ) else 0
    let ftSucc := (t.attempts.filter (fun a => a.success && a.attempt_number == 0)).length
    .ok {
      operation_name := t.operation_name
      total_attempts := total
      successful_attempts := succ
      success_rate := (succ : ℚ) / (total : ℚ) * 100
      average_retries := avg
      first_try_success_rate := (ftSucc : ℚ) / (total : ℚ) * 100
      duration_seconds := pyRound2 (now - t.start_time) }

/-- is_stable (stability_tracker.py lines 85-90); the documented default
threshold is 90.0. -/
def StabilityTracker.is_stable (t : StabilityTracker) (threshold : ℚ) (now : ℚ) :
    Bool :=
  match t.get_metrics now with
  | .error _ => false
  | .ok m => decide (threshold ≤ m.success_rate)

/-- get_metrics in explicit-state form (no field is assigned). -/
def StabilityTracker.get_metricsS (t : StabilityTracker) (now : ℚ) :
    Except String Metrics × StabilityTracker :=
  (t.get_metrics now, t)

/-- get_summary in explicit-state form. -/
def StabilityTracker.get_summaryS (t : StabilityTracker) :
    String × StabilityTracker :=
  (t.get_summary, t)

/-- is_stable in explicit-state form. -/
def StabilityTracker.is_stableS (t : StabilityTracker) (threshold : ℚ) (now : ℚ) :
    Bool × StabilityTracker :=
  (t.is_stable threshold now, t)

def Metrics.eraseDuration (m : Metrics) : Metrics :=
  { m with duration_seconds := 0 }

end StabilityTrackerUtil

/-- The spec's formula for the first-try success rate, stated on the raw
recorded sequence of (success, retry_count) pairs: count of successes
with retry count 0, over the total, times 100. -/
def spec_first_try_success_rate (recs : List (Bool × ℤ)) : ℚ :=
  ((recs.filter (fun p => p.1 && p.2 == 0)).length : ℚ) / (recs.length : ℚ) * 100

/-- C7: querying a tracker with no recorded attempts never divides by
zero or raises, in either implementation: get_metrics returns the
explicit no-data sentinel, get_summary the no-data string, and is_stable
is false. -/
theorem C7_empty_tracker_sentinel (name : String) (t0 now threshold : ℚ) :
    (TestHelpers.StabilityTracker.init name t0).get_metrics now
        = .error "No attempts recorded"
    ∧ (TestHelpers.StabilityTracker.init name t0).get_summary now
        = "No attempts recorded"
    ∧ (StabilityTrackerUtil.StabilityTracker.init name t0).get_metrics now
        = .error "No attempts recorded"
    ∧ (StabilityTrackerUtil.StabilityTracker.init name t0).get_summary
        = "No attempts recorded"
    ∧ (StabilityTrackerUtil.StabilityTracker.init name t0).is_stable threshold now
        = false :=
  ⟨rfl, rfl, rfl, rfl, rfl⟩

theorem record_attempt_counts (t : TestHelpers.StabilityTracker) (s : Bool)
    (rc : ℤ) (h : t.successes + t.failures = t.attempts) :
    (t.record_attempt s rc).successes + (t.record_attempt s rc).failures
      = (t.record_attempt s rc).attempts := by
  cases s <;> simp [TestHelpers.StabilityTracker.record_attempt] <;> omega

theorem applyAll_counts (ops : List (Bool × ℤ)) :
    ∀ (t : TestHelpers.StabilityTracker),
      t.successes + t.failures = t.attempts →
      (t.applyAll ops).successes + (t.applyAll ops).failures
        = (t.applyAll ops).attempts := by
  induction ops with
  | nil => intro t h; exact h
  | cons p ops ih =>
      intro t h
      exact ih (t.record_attempt p.1 p.2) (record_attempt_counts t p.1 p.2 h)

/-- C6: after any sequence of record_attempt calls on a fresh
test_helpers tracker, successes + failures equals total attempts, and
whenever get_metrics returns data, its success_rate lies in [0, 100] and
— when every recorded retry count is non-negative — its average_retries
is non-negative. -/
theorem C6_tracker_state_invariants (name : String) (t0 : ℚ)
    (ops : List (Bool × ℤ)) (now : ℚ) (m : TestHelpers.Metrics)
    (hm : ((TestHelpers.StabilityTracker.init name t0).applyAll ops).get_metrics now
        = .ok m) :
    ((TestHelpers.StabilityTracker.init name t0).applyAll ops).successes
      + ((TestHelpers.StabilityTracker.init name t0).applyAll ops).failures
      = ((TestHelpers.StabilityTracker.init name t0).applyAll ops).attempts
    ∧ 0 ≤ m.success_rate ∧ m.success_rate ≤ 100
    ∧ ((∀ rc ∈ ((TestHelpers.StabilityTracker.init name t0).applyAll ops).retry_counts,
          0 ≤ rc) → 0 ≤ m.average_retries) := by
  have hcounts := applyAll_counts ops (TestHelpers.StabilityTracker.init name t0) rfl
  refine ⟨hcounts, ?_⟩
  set t := (TestHelpers.StabilityTracker.init name t0).applyAll ops with ht
  by_cases h0 : t.attempts = 0
  · exact absurd hm (by simp [TestHelpers.StabilityTracker.get_metrics, h0])
  · rw [TestHelpers.StabilityTracker.get_metrics, if_neg h0] at hm
    injection hm with hm'
    subst hm'
    have hatt : (0 : ℚ) < (t.attempts : ℚ) := by
      exact_mod_cast Nat.pos_of_ne_zero h0
    have hsle : t.successes ≤ t.attempts := by omega
    have hq0 : 0 ≤ (t.successes : ℚ) / (t.attempts : ℚ) * 100 := by positivity
    have hq100 : (t.successes : ℚ) / (t.attempts : ℚ) * 100 ≤ 100 := by
      have hdiv : (t.successes : ℚ) / (t.attempts : ℚ) ≤ 1 := by
        rw [div_le_one hatt]
        exact_mod_cast hsle
      linarith
    refine ⟨pyRound1_nonneg _ hq0, pyRound1_le_100 _ hq100, ?_⟩
    intro hrc
    have hsum : (0 : ℤ) ≤ t.retry_counts.sum := List.sum_nonneg hrc
    have havg : 0 ≤ (t.retry_counts.sum : ℚ) / (t.retry_counts.length : ℚ) := by
      apply div_nonneg
      · exact_mod_cast hsum
      · exact_mod_cast Nat.zero_le _
    exact pyRound2_nonneg _ havg

/-- C6 witness: a single first-try success recorded at time 0, queried
at time 1. -/
theorem C6_tracker_state_invariants_witness :
    ((TestHelpers.StabilityTracker.init "op" 0).applyAll [(true, 0)]).successes
      + ((TestHelpers.StabilityTracker.init "op" 0).applyAll [(true, 0)]).failures
      = ((TestHelpers.StabilityTracker.init "op" 0).applyAll [(true, 0)]).attempts
    ∧ 0 ≤ ((⟨"op", 1, 1, 0, 100, 0, 1, 100⟩ : TestHelpers.Metrics)).success_rate
    ∧ ((⟨"op", 1, 1, 0, 100, 0, 1, 100⟩ : TestHelpers.Metrics)).success_rate ≤ 100
    ∧ 0 ≤ ((⟨"op", 1, 1, 0, 100, 0, 1, 100⟩ : TestHelpers.Metrics)).average_retries := by
  have h := C6_tracker_state_invariants "op" 0 [(true, 0)] 1
    ⟨"op", 1, 1, 0, 100, 0, 1, 100⟩ (by
      norm_num [TestHelpers.StabilityTracker.applyAll,
        TestHelpers.StabilityTracker.record_attempt,
        TestHelpers.StabilityTracker.init,
        TestHelpers.StabilityTracker.get_metrics, pyRound1, pyRound2,
        roundHalfEvenZ])
  exact ⟨h.1, h.2.1, h.2.2.1, h.2.2.2 (by decide)⟩

/-- C3 (counterexample): record a single FAILED attempt with retry count
0 on the test_helpers tracker.  The claim's formula (successes with
retry count 0 over total, i.e. spec_first_try_success_rate) gives 0, but
get_metrics reports first_try_success_rate = 100: retry_counts.count(0)
counts the failed attempt too. -/
theorem C3_first_try_counterexample :
    ((TestHelpers.StabilityTracker.init "op" 0).record_attempt false 0).get_metrics 1
      = .ok ⟨"op", 1, 0, 1, 0, 0, 1, 100⟩
    ∧ spec_first_try_success_rate [((false : Bool), (0 : ℤ))] = 0 := by
  constructor
  · norm_num [TestHelpers.StabilityTracker.record_attempt,
      TestHelpers.StabilityTracker.init,
      TestHelpers.StabilityTracker.get_metrics, pyRound1, pyRound2,
      roundHalfEvenZ]
  · norm_num [spec_first_try_success_rate, List.filter]

/-- C3 (amended): the stability_tracker.py implementation computes the
claim's formula exactly — successes with attempt_number 0, over the
total, times 100; the test_helpers.py implementation instead computes
retry_counts.count(0) over the total, times 100 (rounded to one
decimal), counting failed zero-retry attempts as first-try successes. -/
theorem C3_first_try_amended :
    (∀ (t : StabilityTrackerUtil.StabilityTracker) (now : ℚ)
        (m : StabilityTrackerUtil.Metrics),
        t.get_metrics now = .ok m →
        m.first_try_success_rate
          = spec_first_try_success_rate
              (t.attempts.map (fun a => (a.success, a.attempt_number))))
    ∧ (∀ (t : TestHelpers.StabilityTracker) (now : ℚ) (m : TestHelpers.Metrics),
        t.get_metrics now = .ok m →
        m.first_try_success_rate
          = pyRound1 ((t.retry_counts.count 0 : ℚ) / (t.attempts : ℚ) * 100)) := by
  constructor
  · intro t now m hm
    by_cases h0 : t.attempts = []
    · exact absurd hm (by simp [StabilityTrackerUtil.StabilityTracker.get_metrics, h0])
    · simp only [StabilityTrackerUtil.StabilityTracker.get_metrics, if_neg h0] at hm
      injection hm with hm'
      subst hm'
      simp only [spec_first_try_success_rate, List.filter_map, List.length_map,
        Function.comp_def]
  · intro t now m hm
    by_cases h0 : t.attempts = 0
    · exact absurd hm (by simp [TestHelpers.StabilityTracker.get_metrics, h0])
    · simp only [TestHelpers.StabilityTracker.get_metrics, if_neg h0] at hm
      injection hm with hm'
      subst hm'
      rfl

/-- C3 witness: a single first-try success in each implementation. -/
theorem C3_first_try_amended_witness :
    ((⟨"op", 1, 1, 100, 0, 100, 2⟩ : StabilityTrackerUtil.Metrics).first_try_success_rate
      = spec_first_try_success_rate
          ((((StabilityTrackerUtil.StabilityTracker.init "op" 0).record_attempt
              true 0 1).attempts).map (fun a => (a.success, a.attempt_number))))
    ∧ ((⟨"op", 1, 1, 0, 100, 0, 1, 100⟩ : TestHelpers.Metrics).first_try_success_rate
      = pyRound1
          (((((TestHelpers.StabilityTracker.init "op" 0).record_attempt
              true 0).retry_counts).count 0 : ℚ)
            / ((((TestHelpers.StabilityTracker.init "op" 0).record_attempt
              true 0).attempts) : ℚ) * 100)) := by
  constructor
  · exact C3_first_try_amended.1 _ 2 _ (by
      norm_num [StabilityTrackerUtil.StabilityTracker.record_attempt,
        StabilityTrackerUtil.StabilityTracker.init,
        StabilityTrackerUtil.StabilityTracker.get_metrics, List.filter,
        pyRound2, roundHalfEvenZ])
  · exact C3_first_try_amended.2 _ 1 _ (by
      norm_num [TestHelpers.StabilityTracker.record_attempt,
        TestHelpers.StabilityTracker.init,
        TestHelpers.StabilityTracker.get_metrics, pyRound1, pyRound2,
        roundHalfEvenZ])

/-- C9: the metric queries mutate nothing — in explicit-state form each
returns its receiver unchanged (the Python bodies read fields and assign
none) — and two reads of the same tracker at different wall-clock times
agree on every field except duration_seconds; summaries and is_stable,
which never render the duration, agree exactly. -/
theorem C9_queries_do_not_mutate :
    (∀ (tA : TestHelpers.StabilityTracker) (now : ℚ),
        (tA.get_metricsS now).2 = tA ∧ (tA.get_summaryS now).2 = tA)
    ∧ (∀ (tB : StabilityTrackerUtil.StabilityTracker) (threshold now : ℚ),
        (tB.get_metricsS now).2 = tB ∧ tB.get_summaryS.2 = tB
          ∧ (tB.is_stableS threshold now).2 = tB)
    ∧ (∀ (tA : TestHelpers.StabilityTracker) (n1 n2 : ℚ),
        (tA.get_metrics n1).map TestHelpers.Metrics.eraseDuration
          = (tA.get_metrics n2).map TestHelpers.Metrics.eraseDuration
        ∧ tA.get_summary n1 = tA.get_summary n2)
    ∧ (∀ (tB : StabilityTrackerUtil.StabilityTracker) (threshold n1 n2 : ℚ),
        (tB.get_metrics n1).map StabilityTrackerUtil.Metrics.eraseDuration
          = (tB.get_metrics n2).map StabilityTrackerUtil.Metrics.eraseDuration
        ∧ tB.is_stable threshold n1 = tB.is_stable threshold n2) := by
  refine ⟨fun tA now => ⟨rfl, rfl⟩, fun tB threshold now => ⟨rfl, rfl, rfl⟩, ?_, ?_⟩
  · intro tA n1 n2
    constructor
    · by_cases h0 : tA.attempts = 0 <;>
        simp [TestHelpers.StabilityTracker.get_metrics, h0, Except.map,
          TestHelpers.Metrics.eraseDuration]
    · by_cases h0 : tA.attempts = 0 <;>
        simp [TestHelpers.StabilityTracker.get_summary,
          TestHelpers.StabilityTracker.get_metrics, h0]
  · intro tB threshold n1 n2
    constructor
    · by_cases h0 : tB.attempts = [] <;>
        simp [StabilityTrackerUtil.StabilityTracker.get_metrics, h0, Except.map,
          StabilityTrackerUtil.Metrics.eraseDuration]
    · by_cases h0 : tB.attempts = [] <;>
        simp [StabilityTrackerUtil.StabilityTracker.is_stable,
          StabilityTrackerUtil.StabilityTracker.get_metrics, h0]

/-! ## Error classifier: framework/utilities/error_analyzer.py

The regex patterns in `_initialize_error_patterns` are literal fragments
joined by `.*`; `re.search(pat, s, IGNORECASE)` on such a pattern holds
iff the (lowercased) fragments occur in `s` in order, which is what
`reSearch` computes. -/

/-- Drop everything up to and including the first occurrence of `p` in
`s`; `none` when `p` does not occur. -/
def dropAfterFirst (p : List Char) : List Char → Option (List Char)
  | [] => if p.isPrefixOf ([] : List Char) then some [] else none
  | c :: t =>
      if p.isPrefixOf (c :: t) then some ((c :: t).drop p.length)
      else dropAfterFirst p t

/-- Lowercase a character list (Python str.lower on ASCII text). -/
def lcToLower (cs : List Char) : List Char := cs.map Char.toLower

/-- Split a pattern at each literal `.*` separator. -/
def splitFrags : List Char → List (List Char)
  | [] => [[]]
  | '.' :: '*' :: t => [] :: splitFrags t
  | c :: t =>
      match splitFrags t with
      | f :: fs => (c :: f) :: fs
      | [] => [[c]]

/-- The fragments occur in `s` in order. -/
def seqContains : List (List Char) → List Char → Bool
  | [], _ => true
  | p :: ps, s =>
      match dropAfterFirst p s with
      | none => false
      | some rest => seqContains ps rest

/-- `re.search(pat, s, re.IGNORECASE)` for the literal-fragment patterns
of the analyzer. -/
def reSearch (pat s : String) : Bool :=
  seqContains ((splitFrags pat.toList).map lcToLower) (lcToLower s.toList)

/-- Python `sub in s.lower()` (used for the `'get' in context.lower()`
and exception-type keyword checks). -/
def strContainsLc (sub s : String) : Bool :=
  (dropAfterFirst sub.toList (lcToLower s.toList)).isSome

/-- ErrorCategory (error_analyzer.py lines 15-24). -/
inductive ErrorCategory where
  | NETWORK_ERROR
  | FLAKY_API_BEHAVIOR
  | VALIDATION_ERROR
  | AUTHENTICATION_ERROR
  | RATE_LIMITING
  | SERVER_ERROR
  | EXPECTED_ERROR
  | UNKNOWN_ERROR
deriving DecidableEq, Repr

/-- ErrorAnalysis (error_analyzer.py lines 27-35); confidence as ℚ. -/
structure ErrorAnalysis where
  category : ErrorCategory
  is_retryable : Bool
  confidence : ℚ
  description : String
  suggested_action : String
  retry_delay : Option ℚ
deriving DecidableEq, Repr

/-- `_initialize_error_patterns` (error_analyzer.py lines 48-68), in the
dict's insertion order. -/
def error_patterns : List (ErrorCategory × List String) :=
  [(.NETWORK_ERROR,
      ["connection.*timeout", "connection.*refused", "network.*unreachable",
        "dns.*resolution", "socket.*error", "connection.*reset"]),
   (.FLAKY_API_BEHAVIOR,
      ["internal.*server.*error", "service.*unavailable", "bad.*gateway",
        "gateway.*timeout", "temporary.*unavailable", "502", "503", "504"]),
   (.RATE_LIMITING,
      ["rate.*limit", "too.*many.*requests", "429", "quota.*exceeded"]),
   (.AUTHENTICATION_ERROR,
      ["unauthorized", "forbidden", "invalid.*api.*key", "401", "403"]),
   (.VALIDATION_ERROR,
      ["bad.*request", "invalid.*input", "validation.*failed", "400"])]

/-- The nested `for category ... for pattern ...` search of
analyze_exception: first category whose pattern list contains a match. -/
def findCategoryMatch : List (ErrorCategory × List String) → String → Option ErrorCategory
  | [], _ => none
  | (c, pats) :: rest, msg =>
      if pats.any (fun p => reSearch p msg) then some c
      else findCategoryMatch rest msg

/-- `_create_analysis_for_category` (error_analyzer.py lines 251-297). -/
def create_analysis_for_category (c : ErrorCategory) (description : String) :
    ErrorAnalysis :=
  match c with
  | .NETWORK_ERROR =>
      ⟨c, true, 9/10, description, "Retry with exponential backoff", some 2⟩
  | .FLAKY_API_BEHAVIOR =>
      ⟨c, true, 95/100, description, "Retry - expected flaky API behavior", some (3/2)⟩
  | .RATE_LIMITING =>
      ⟨c, true, 1, description, "Wait before retry", some 60⟩
  | .AUTHENTICATION_ERROR =>
      ⟨c, false, 9/10, description, "Fix authentication", none⟩
  | .VALIDATION_ERROR =>
      ⟨c, false, 9/10, description, "Fix request data", none⟩
  | _ =>
      ⟨c, false, 1/2, description, "Manual investigation required", none⟩

/-- The slice of a failed APIResponse the classifier consumes: the
status code, the error message extracted for descriptions
(`response.json().get('message', ...)` falling back to `response.text`),
and the parsed `retry-after` header (`none` when absent or unparseable;
the code then uses 60.0). -/
structure CResp where
  status_code : Nat
  errMessage : String
  retryAfter : Option ℚ
deriving DecidableEq, Repr

/-- `_analyze_not_found_error` (error_analyzer.py lines 148-174). -/
def analyze_not_found_error (context : String) : ErrorAnalysis :=
  if strContainsLc "get" context then
    ⟨.EXPECTED_ERROR, true, 8/10,
      "Pet not found - might be legitimate or auto-cleaned by flaky API",
      "Check if pet was auto-deleted by flaky API, minimal retry", some 1⟩
  else
    ⟨.EXPECTED_ERROR, false, 8/10, "Resource not found",
      "Verify resource exists before operation", none⟩

/-- `_analyze_bad_request_error` (error_analyzer.py lines 176-190). -/
def analyze_bad_request_error (r : CResp) : ErrorAnalysis :=
  ⟨.VALIDATION_ERROR, false, 9/10, "Validation error: " ++ r.errMessage,
    "Fix request data format/content", none⟩

/-- `_analyze_server_error` (error_analyzer.py lines 192-210). -/
def analyze_server_error (r : CResp) : ErrorAnalysis :=
  ⟨.FLAKY_API_BEHAVIOR, true, 95/100,
    "Server error " ++ toString r.status_code ++ " - typical flaky API behavior",
    "Retry with exponential backoff - this is expected from flaky API", some (3/2)⟩

/-- `_analyze_rate_limit_error` (error_analyzer.py lines 212-228). -/
def analyze_rate_limit_error (r : CResp) : ErrorAnalysis :=
  let delay := r.retryAfter.getD 60
  ⟨.RATE_LIMITING, true, 1, "Rate limit exceeded",
    "Wait " ++ fmtQ delay ++ " seconds before retry", some delay⟩

/-- `_analyze_auth_error` (error_analyzer.py lines 230-238). -/
def analyze_auth_error (r : CResp) : ErrorAnalysis :=
  ⟨.AUTHENTICATION_ERROR, false, 95/100,
    "Authentication error " ++ toString r.status_code,
    "Check API key configuration", none⟩

/-- `_analyze_unknown_error` (error_analyzer.py lines 240-249). -/
def analyze_unknown_error (r : CResp) : ErrorAnalysis :=
  ⟨.UNKNOWN_ERROR, true, 3/10,
    "Unknown error with status " ++ toString r.status_code,
    "Log details and retry once - might be flaky API", some 2⟩

/-- ErrorAnalyzer.analyze_response_error (error_analyzer.py lines
70-99): dispatch on the status code, in source order. -/
def analyze_response_error (r : CResp) (context : String) : ErrorAnalysis :=
  if r.status_code = 404 then analyze_not_found_error context
  else if r.status_code = 400 then analyze_bad_request_error r
  else if r.status_code ≥ 500 then analyze_server_error r
  else if r.status_code = 429 then analyze_rate_limit_error r
  else if r.status_code = 401 ∨ r.status_code = 403 then analyze_auth_error r
  else analyze_unknown_error r

/-- A transport exception as the classifier sees it: the exception
type's name and `str(exception)`. -/
structure ExcDescr where
  typeName : String
  message : String
deriving DecidableEq, Repr

/-- ErrorAnalyzer.analyze_exception (error_analyzer.py lines 101-146):
exception types containing connection/timeout/network are network
errors; otherwise the lowercased message is matched against the pattern
table; anything unmatched is UNKNOWN_ERROR with is_retryable = False and
confidence 0.5. -/
def analyze_exception (e : ExcDescr) : ErrorAnalysis :=
  if ["connection", "timeout", "network"].any
      (fun k => strContainsLc k e.typeName) then
    ⟨.NETWORK_ERROR, true, 9/10, "Network error: " ++ e.typeName,
      "Retry with exponential backoff", some 2⟩
  else
    match findCategoryMatch error_patterns e.message with
    | some c => create_analysis_for_category c e.message
    | none =>
        ⟨.UNKNOWN_ERROR, false, 1/2,
          "Unknown exception: " ++ e.typeName ++ ": " ++ e.message,
          "Investigate manually - unexpected error type", none⟩

/-- C5 (counterexample): the transport exception ValueError("weird
failure") matches no network keyword and no pattern in the table, yet
analyze_exception classifies it UnknownError with is_retryable = false
and confidence 0.5 — not retryable with confidence ≤ 0.3 as claimed. -/
theorem C5_unknown_exception_counterexample :
    findCategoryMatch error_patterns "weird failure" = none
    ∧ (["connection", "timeout", "network"].any
        (fun k => strContainsLc k "ValueError")) = false
    ∧ (analyze_exception ⟨"ValueError", "weird failure"⟩).category
        = .UNKNOWN_ERROR
    ∧ (analyze_exception ⟨"ValueError", "weird failure"⟩).is_retryable = false
    ∧ (analyze_exception ⟨"ValueError", "weird failure"⟩).confidence = 1/2 := by
  exact ⟨by decide, by decide, by rfl, by rfl, by rfl⟩

/-- C5 (amended): an HTTP response matching none of the status rules is
classified UnknownError, retryable, confidence 0.3 (≤ 0.3) as the claim
says; but an unmatched transport exception is classified UnknownError
with is_retryable = false and confidence 0.5. -/
theorem C5_unknown_classification_amended :
    (∀ (r : CResp) (context : String),
        r.status_code ≠ 404 → r.status_code ≠ 400 → r.status_code < 500 →
        r.status_code ≠ 429 → r.status_code ≠ 401 → r.status_code ≠ 403 →
        analyze_response_error r context = analyze_unknown_error r
        ∧ (analyze_response_error r context).category = .UNKNOWN_ERROR
        ∧ (analyze_response_error r context).is_retryable = true
        ∧ (analyze_response_error r context).confidence ≤ 3/10)
    ∧ (∀ (e : ExcDescr),
        (["connection", "timeout", "network"].any
          (fun k => strContainsLc k e.typeName)) = false →
        findCategoryMatch error_patterns e.message = none →
        (analyze_exception e).category = .UNKNOWN_ERROR
        ∧ (analyze_exception e).is_retryable = false
        ∧ (analyze_exception e).confidence = 1/2) := by
  constructor
  · intro r context h404 h400 h500 h429 h401 h403
    have h : analyze_response_error r context = analyze_unknown_error r := by
      unfold analyze_response_error
      rw [if_neg h404, if_neg h400, if_neg (by omega), if_neg h429,
        if_neg (by tauto)]
    refine ⟨h, ?_, ?_, ?_⟩ <;> rw [h]
    · rfl
    · rfl
    · exact le_refl _
  · intro e hnet hmatch
    simp only [analyze_exception, hnet, Bool.false_eq_true, if_false, hmatch]
    simp

/-- C5 witness: a 302 response (no status rule matches) and a KeyError
with an unmatched message. -/
theorem C5_unknown_classification_witness :
    (analyze_response_error ⟨302, "", none⟩ "ctx" = analyze_unknown_error ⟨302, "", none⟩
      ∧ (analyze_response_error ⟨302, "", none⟩ "ctx").category = .UNKNOWN_ERROR
      ∧ (analyze_response_error ⟨302, "", none⟩ "ctx").is_retryable = true
      ∧ (analyze_response_error ⟨302, "", none⟩ "ctx").confidence ≤ 3/10)
    ∧ ((analyze_exception ⟨"KeyError", "odd response shape"⟩).category
          = .UNKNOWN_ERROR
      ∧ (analyze_exception ⟨"KeyError", "odd response shape"⟩).is_retryable = false
      ∧ (analyze_exception ⟨"KeyError", "odd response shape"⟩).confidence = 1/2) := by
  constructor
  · exact C5_unknown_classification_amended.1 ⟨302, "", none⟩ "ctx"
      (by decide) (by decide) (by decide) (by decide) (by decide) (by decide)
  · exact C5_unknown_classification_amended.2 ⟨"KeyError", "odd response shape"⟩
      (by decide) (by decide)

/-! ## Pet-id validation: validate_pet_id (framework/exceptions.py lines 226-249) -/

/-- No two consecutive underscores (Python int() rejects them). -/
def noDoubleUnderscore : List Char → Bool
  | [] => true
  | [_] => true
  | a :: b :: t => !(a == '_' && b == '_') && noDoubleUnderscore (b :: t)

/-- A valid Python decimal-int digit body: non-empty, starts and ends
with a digit, only digits and single separating underscores. -/
def validIntDigits (cs : List Char) : Bool :=
  (match cs.head? with
    | some c => c.isDigit
    | none => false)
  && (match cs.getLast? with
    | some c => c.isDigit
    | none => false)
  && cs.all (fun x => x.isDigit || x == '_')
  && noDoubleUnderscore cs

/-- Numeric value of a digit string (underscores already filtered out). -/
def digitsVal (cs : List Char) : ℤ :=
  cs.foldl (fun a c => a * 10 + ((c.toNat - 48 : Nat) : ℤ)) 0

/-- Python `int(s)` on an ASCII decimal literal: strip surrounding
whitespace, optional sign, digits with optional single underscore
separators; `none` models the ValueError. -/
def pyStrToInt (s : String) : Option ℤ :=
  let t := ((s.toList.dropWhile Char.isWhitespace).reverse.dropWhile
    Char.isWhitespace).reverse
  let signDigits : Bool × List Char :=
    match t with
    | '+' :: r => (false, r)
    | '-' :: r => (true, r)
    | r => (false, r)
  if validIntDigits signDigits.2 then
    some ((if signDigits.1 then -1 else 1) * digitsVal (signDigits.2.filter Char.isDigit))
  else none

/-- A Python value handed to validate_pet_id: None, an int (bools are
ints in Python: True is 1, False is 0), a str, a float, or anything else
(only its type name matters, for the error message). -/
inductive PyVal where
  | pynone
  | pyint (n : ℤ)
  | pybool (b : Bool)
  | pystr (s : String)
  | pyfloat (q : ℚ)
  | pyother (typeName : String)
deriving DecidableEq, Repr

/-- The positivity and upper-limit checks of validate_pet_id
(framework/exceptions.py lines 243-249). -/
def checkPetIdRange (n : ℤ) : Except String ℤ :=
  if n ≤ 0 then .error "Pet ID must be positive"
  else if n > 999999999 then .error "Pet ID too large"
  else .ok n

/-- validate_pet_id (framework/exceptions.py lines 226-249); the raised
InvalidPetIdError becomes `Except.error` carrying the reason. -/
def validate_pet_id : PyVal → Except String ℤ
  | .pynone => .error "Pet ID cannot be None"
  | .pystr s =>
      match pyStrToInt s with
      | none => .error "Pet ID must be a valid integer"
      | some n => checkPetIdRange n
  | .pyint n => checkPetIdRange n
  | .pybool b => checkPetIdRange (if b then 1 else 0)
  | .pyfloat _ => .error "Pet ID must be integer, got float"
  | .pyother ty => .error ("Pet ID must be integer, got " ++ ty)

/-- The id PetStoreAPIClient.get_pet_by_id (framework/api_client.py
lines 200-221) puts in the request URL: it calls validate_pet_id first
and only sends a request when validation succeeded. -/
def get_pet_by_id_request_id (pet_id : PyVal) : Option ℤ :=
  (validate_pet_id pet_id).toOption

/-- Same guard in PetStoreAPIClient.delete_pet (api_client.py lines
269-294). -/
def delete_pet_request_id (pet_id : PyVal) : Option ℤ :=
  (validate_pet_id pet_id).toOption

/-- C10: validate_pet_id returns an integer in [1, 999999999] or fails;
a string parsed by Python int() behaves exactly like the parsed int;
None, unparseable strings, floats, non-positive ints and ints above
999,999,999 all fail; and both guarded client operations only ever send
requests for ids in range. -/
theorem C10_validate_pet_id :
    (∀ (v : PyVal) (n : ℤ), validate_pet_id v = .ok n → 1 ≤ n ∧ n ≤ 999999999)
    ∧ (∀ (s : String) (n : ℤ), pyStrToInt s = some n →
        validate_pet_id (.pystr s) = validate_pet_id (.pyint n))
    ∧ validate_pet_id .pynone = .error "Pet ID cannot be None"
    ∧ (∀ s, pyStrToInt s = none →
        validate_pet_id (.pystr s) = .error "Pet ID must be a valid integer")
    ∧ (∀ q : ℚ, validate_pet_id (.pyfloat q) = .error "Pet ID must be integer, got float")
    ∧ (∀ n : ℤ, n ≤ 0 → validate_pet_id (.pyint n) = .error "Pet ID must be positive")
    ∧ (∀ n : ℤ, 999999999 < n → validate_pet_id (.pyint n) = .error "Pet ID too large")
    ∧ (∀ (v : PyVal) (n : ℤ), get_pet_by_id_request_id v = some n →
        1 ≤ n ∧ n ≤ 999999999)
    ∧ (∀ (v : PyVal) (n : ℤ), delete_pet_request_id v = some n →
        1 ≤ n ∧ n ≤ 999999999) := by
  have hrange : ∀ (k n : ℤ), checkPetIdRange k = .ok n → 1 ≤ n ∧ n ≤ 999999999 := by
    intro k n h
    unfold checkPetIdRange at h
    split_ifs at h with h1 h2
    · injection h with h'
      omega
  have hok : ∀ (v : PyVal) (n : ℤ), validate_pet_id v = .ok n →
      1 ≤ n ∧ n ≤ 999999999 := by
    intro v n h
    cases v with
    | pynone => exact absurd h (by simp [validate_pet_id])
    | pystr s =>
        rw [validate_pet_id] at h
        cases hp : pyStrToInt s with
        | none => rw [hp] at h; exact absurd h (by simp)
        | some k => rw [hp] at h; exact hrange k n h
    | pyint k => exact hrange k n h
    | pybool b => exact hrange _ n h
    | pyfloat q => exact absurd h (by simp [validate_pet_id])
    | pyother ty => exact absurd h (by simp [validate_pet_id])
  refine ⟨hok, ?_, rfl, ?_, fun q => rfl, ?_, ?_, ?_, ?_⟩
  · intro s n hp
    rw [validate_pet_id, hp]
    rfl
  · intro s hp
    rw [validate_pet_id, hp]
  · intro n hn
    rw [validate_pet_id, checkPetIdRange, if_pos hn]
  · intro n hn
    rw [validate_pet_id, checkPetIdRange, if_neg (by omega), if_pos (by omega)]
  · intro v n h
    unfold get_pet_by_id_request_id at h
    cases hv : validate_pet_id v with
    | error e => rw [hv] at h; exact absurd h (by simp [Except.toOption])
    | ok k =>
        rw [hv] at h
        simp only [Except.toOption, Option.some.injEq] at h
        subst h
        exact hok v k hv
  · intro v n h
    unfold delete_pet_request_id at h
    cases hv : validate_pet_id v with
    | error e => rw [hv] at h; exact absurd h (by simp [Except.toOption])
    | ok k =>
        rw [hv] at h
        simp only [Except.toOption, Option.some.injEq] at h
        subst h
        exact hok v k hv

/-- C10 witness: concrete inputs — the string " 42 " coerces like the
int 42, 0 and 1000000000 and a float are rejected, 5 is accepted. -/
theorem C10_validate_pet_id_witness :
    (1 ≤ (5 : ℤ) ∧ (5 : ℤ) ≤ 999999999)
    ∧ validate_pet_id (.pystr " 42 ") = validate_pet_id (.pyint 42)
    ∧ validate_pet_id (.pystr "abc") = .error "Pet ID must be a valid integer"
    ∧ validate_pet_id (.pyint 0) = .error "Pet ID must be positive"
    ∧ validate_pet_id (.pyint 1000000000) = .error "Pet ID too large"
    ∧ (1 ≤ (7 : ℤ) ∧ (7 : ℤ) ≤ 999999999) := by
  refine ⟨C10_validate_pet_id.1 (.pyint 5) 5 (by rfl), ?_, ?_, ?_, ?_, ?_⟩
  · exact C10_validate_pet_id.2.1 " 42 " 42 (by decide)
  · exact C10_validate_pet_id.2.2.2.1 "abc" (by decide)
  · exact C10_validate_pet_id.2.2.2.2.2.1 0 (by decide)
  · exact C10_validate_pet_id.2.2.2.2.2.2.1 1000000000 (by decide)
  · exact C10_validate_pet_id.2.2.2.2.2.2.2.1 (.pyint 7) 7 (by decide)

/-- C1 witness: a passing wrapper run where name changes from "a" to
"b" — the after-value matches the intended value and differs from the
before-value. -/
theorem C1_update_verifier_amended_witness :
    dget [("name", JVal.s "b")] "name" = some (JVal.s "b")
    ∧ dget [("name", JVal.s "a")] "name" ≠ some (JVal.s "b") :=
  C1_update_verifier_amended.2.2 [("name", JVal.s "a")] [("name", JVal.s "b")]
    ⟨200, some [("name", JVal.s "b")]⟩ [("name", JVal.s "b")] "name" (JVal.s "b")
    rfl (by decide) (by decide)
